import Mathlib

/-!
Verification of the `gfx` rendering scaffold (files `src/gfx/src/ui.rs` and
`src/gfx/src/state.rs`) against its natural-language specification.

Modelling conventions:
* `f32` values are modelled by `ℚ`.  The program never performs arithmetic on
  them — positions and colors are only constructed, copied and compared — so
  the exact floating-point representation is irrelevant and rationals give the
  literals their exact decimal value.
* `u16` and `u32` values (`INDICES`, `num_indices`, sizes) are modelled by `ℕ`;
  all concrete values are far below the wrap-around bound, so no modular
  reduction arises.
* GPU-side handles (`wgpu::Device`, `wgpu::Queue`, `wgpu::Surface`, the window)
  are opaque to the program logic and are modelled as `ℕ` identifiers carried
  around unchanged.
* A GPU buffer is modelled by its uploaded contents (a `List`), since the
  program only ever writes a buffer once at creation.
* Fallible operations that the Rust code unwraps or `expect`s (indexing
  `cap.formats[0]`, `get_current_texture()`) are modelled with `Option`:
  `none` is the panic.
* `State::render` records the commands it issues as an ordered trace of
  `RenderOp`s, so that ordering claims about the frame can be stated.
-/

namespace Gfx

/-- Model of `f32` (see the modelling conventions above). -/
abbrev F := ℚ

/-- Model of `[f32; 3]`. -/
abbrev Vec3 := F × F × F

/-- Model of `[f32; 4]`. -/
abbrev Vec4 := F × F × F × F

/-- `Vertex` from `state.rs`: position (3 floats), one float of padding, RGBA
color (4 floats).  The Rust field `_padding` is rendered `padding`. -/
structure Vertex where
  position : Vec3
  padding : F
  color : Vec4
deriving DecidableEq, Repr

/-- The hardcoded constant vertex array `VERTICES` from `state.rs`
(per-vertex colors, alpha 0.5). -/
def VERTICES : List Vertex :=
  [ { position := (-0.0868241, 0.49240386, 0.0), color := (1.0, 0.0, 0.0, 0.5), padding := 0.0 }, -- A
    { position := (-0.49513406, 0.06958647, 0.0), color := (0.0, 1.0, 0.0, 0.5), padding := 0.0 }, -- B
    { position := (-0.21918549, -0.44939706, 0.0), color := (0.0, 0.0, 1.0, 0.5), padding := 0.0 } ] -- C

/-- The hardcoded constant index array `INDICES` from `state.rs` (`&[u16]`). -/
def INDICES : List ℕ := [0, 1, 2]

/-- `Element` from `ui.rs`: an ordered list of 3D points plus a single flat
RGBA color. -/
structure Element where
  shape : List Vec3
  color : Vec4
deriving DecidableEq, Repr

/-- `Element::new`: empty shape, transparent black color `[0.0, 0.0, 0.0, 0.0]`. -/
def Element.new : Element :=
  { shape := [], color := (0.0, 0.0, 0.0, 0.0) }

/-- `Element::build`: maps each point of the shape to a vertex carrying the
builder's single shared color (the Rust loop pushes one `Vertex` per point,
in order). -/
def Element.build (self : Element) : List Vertex :=
  self.shape.map fun vertex =>
    { position := vertex, padding := 0.0, color := self.color }

/-- `Element::with_shape`: replaces the stored shape, returns the builder. -/
def Element.with_shape (self : Element) (shape : List Vec3) : Element :=
  { self with shape := shape }

/-- `Element::with_color`: replaces the stored color, returns the builder. -/
def Element.with_color (self : Element) (color : Vec4) : Element :=
  { self with color := color }

/-- Model of `wgpu::TextureFormat`: a family of base formats and their sRGB
variants, enough to express `add_srgb_suffix`. -/
inductive TextureFormat where
  | base (id : ℕ)
  | srgb (id : ℕ)
deriving DecidableEq, Repr

/-- `wgpu::TextureFormat::add_srgb_suffix`: the sRGB variant of a format
(idempotent on formats that are already sRGB). -/
def TextureFormat.add_srgb_suffix : TextureFormat → TextureFormat
  | .base id => .srgb id
  | .srgb id => .srgb id

/-- The `formats` list of `wgpu::SurfaceCapabilities`, as returned by
`surface.get_capabilities(&adapter)`. -/
structure SurfaceCapabilities where
  formats : List TextureFormat
deriving DecidableEq, Repr

/-- `winit::dpi::PhysicalSize<u32>`. -/
structure PhysicalSize where
  width : ℕ
  height : ℕ
deriving DecidableEq, Repr

/-- `wgpu::BlendState`: only `REPLACE` occurs in this program. -/
inductive BlendState where
  | replace
deriving DecidableEq, Repr

/-- The `wgpu::ColorTargetState` of the pipeline's fragment stage (the part of
the fixed pipeline configuration the claims mention; format is the negotiated
surface format). -/
structure ColorTargetState where
  format : TextureFormat
  blend : Option BlendState
deriving DecidableEq, Repr

/-- The data of the `wgpu::RenderPipelineDescriptor` built in `State::new`
that depends on runtime values: the fragment color targets.  The remaining
rasterization state (triangle-list topology, back-face culling, fill mode,
no depth/stencil, one sample) is constant in the source and carries no
claim-relevant information. -/
structure RenderPipelineDescriptor where
  fragment_targets : List (Option ColorTargetState)
deriving DecidableEq, Repr

/-- The fields of `wgpu::SurfaceConfiguration` built in
`State::configure_surface` that depend on the state (format, view formats,
width, height); usage, alpha mode, frame latency and present mode are
constants. -/
structure SurfaceConfiguration where
  format : TextureFormat
  view_formats : List TextureFormat
  width : ℕ
  height : ℕ
deriving DecidableEq, Repr

/-- `State` from `state.rs`.  `window`, `device`, `queue` and `surface` are
opaque handles (modelled as `ℕ` identifiers); the two buffers are modelled by
their uploaded contents. -/
structure State where
  window : ℕ
  device : ℕ
  queue : ℕ
  size : PhysicalSize
  surface : ℕ
  surface_format : TextureFormat
  render_pipeline : RenderPipelineDescriptor
  vertex_buffer : List Vertex
  index_buffer : List ℕ
  num_indices : ℕ
deriving DecidableEq, Repr

/-- The local array `b` in `State::new`: the three hardcoded triangle corner
points A, B, C. -/
def State.new.b : List Vec3 :=
  [ (-0.0868241, 0.49240386, 0.0),   -- A
    (-0.49513406, 0.06958647, 0.0),  -- B
    (-0.21918549, -0.44939706, 0.0) ] -- C

/-- The local `a` in `State::new`:
`Element::new().with_color([1.0, 0.0, 0.0, 0.0]).with_shape(b.to_vec()).build()`. -/
def State.new.a : List Vertex :=
  ((Element.new.with_color (1.0, 0.0, 0.0, 0.0)).with_shape State.new.b).build

/-- `State::new` (its deterministic dataflow): given the window handle, the
window's inner size and the surface capabilities reported by the adapter, it
selects `cap.formats[0]` as the surface format (`none` models the
out-of-bounds panic when the capability list is empty), builds the pipeline
whose single color target uses that format with `REPLACE` blending, uploads
`a` (the `Element::build` output) as the vertex buffer and `INDICES` as the
index buffer, and sets `num_indices = INDICES.len()`.  Opaque device/queue/
surface handles are passed through.  (`State::new` also calls
`configure_surface` once; that call is modelled by `State.configure_surface`
on the returned state.) -/
def State.new (window device queue surface : ℕ) (inner_size : PhysicalSize)
    (cap : SurfaceCapabilities) : Option State :=
  match cap.formats with
  | [] => none
  | surface_format :: _ =>
    some
      { window := window
        device := device
        queue := queue
        size := inner_size
        surface := surface
        surface_format := surface_format
        render_pipeline :=
          { fragment_targets :=
              [some { format := surface_format, blend := some .replace }] }
        vertex_buffer := State.new.a
        index_buffer := INDICES
        num_indices := INDICES.length }

/-- `State::configure_surface`: the surface configuration it applies, built
from the stored surface format and size (view formats request the sRGB
variant of the stored format). -/
def State.configure_surface (self : State) : SurfaceConfiguration :=
  { format := self.surface_format
    view_formats := [self.surface_format.add_srgb_suffix]
    width := self.size.width
    height := self.size.height }

/-- `State::resize`: stores `new_size`, then synchronously reconfigures the
surface.  Returns the updated state together with the surface configuration
applied by the embedded `configure_surface` call. -/
def State.resize (self : State) (new_size : PhysicalSize) :
    State × SurfaceConfiguration :=
  let self' := { self with size := new_size }
  (self', self'.configure_surface)

/-- One command issued during `State::render`, in program order. -/
inductive RenderOp where
  | begin_render_pass (clear_color : Vec4)
  | set_pipeline (p : RenderPipelineDescriptor)
  | set_vertex_buffer (slot : ℕ) (contents : List Vertex)
  | set_index_buffer (contents : List ℕ)
  | draw_indexed (lo hi : ℕ)
  | submit
  | present
deriving DecidableEq, Repr

/-- Whether a render op is an indexed draw call. -/
def RenderOp.is_draw_indexed : RenderOp → Bool
  | .draw_indexed _ _ => true
  | _ => false

/-- `State::render`: `acquired` models the result of
`surface.get_current_texture()` (`none` = acquisition failed, on which the
`.expect` panics, modelled as `none` out).  On success it records, in order:
begin the render pass clearing to `wgpu::Color::TRANSPARENT`, set the fixed
pipeline, set vertex buffer slot 0, set the index buffer, one
`draw_indexed(0..num_indices, 0, 0..1)`, submit, present. -/
def State.render (self : State) (acquired : Option Unit) :
    Option (List RenderOp) :=
  match acquired with
  | none => none
  | some _ =>
    some
      [ .begin_render_pass (0.0, 0.0, 0.0, 0.0),
        .set_pipeline self.render_pipeline,
        .set_vertex_buffer 0 self.vertex_buffer,
        .set_index_buffer self.index_buffer,
        .draw_indexed 0 self.num_indices,
        .submit,
        .present ]

end Gfx

namespace Gfx

/-- C4: `Element::new().build()` returns an empty sequence of vertices. -/
theorem element_new_build_empty : Element.new.build = [] := rfl

/-- C2: for every list of 3D points `v`, `Element::new().with_shape(v).build()`
returns a vertex sequence of the same length as `v`, whose i-th position is
the i-th input point (the positions, in order, are exactly `v`), and every
vertex's color equals the builder's configured color, which is transparent
black `[0,0,0,0]` since `with_color` was never called. -/
theorem element_build_positions_and_default_color (v : List Vec3) :
    (Element.new.with_shape v).build.length = v.length ∧
    (Element.new.with_shape v).build.map Vertex.position = v ∧
    (Element.new.with_shape v).build.map Vertex.color =
      List.replicate v.length (Element.new.with_shape v).color ∧
    (Element.new.with_shape v).color = (0, 0, 0, 0) := by
  refine ⟨?_, ?_, ?_, by norm_num [Element.new, Element.with_shape]⟩
  · simp [Element.build, Element.with_shape, Element.new]
  · simp [Element.build, Element.with_shape, Element.new, Function.comp_def]
  · simp [Element.build, Element.with_shape, Element.new, List.map_map]
    induction v with
    | nil => rfl
    | cons p ps ih => simpa [List.replicate] using ih

/-- C3: `with_color` after `with_shape` still applies the final color to all
produced vertices: the two orders of the fluent calls build identical vertex
sequences, and every produced vertex carries color `c` (the color is read at
`build` time, not captured at `with_shape` time). -/
theorem element_color_after_shape (v : List Vec3) (c : Vec4) :
    ((Element.new.with_shape v).with_color c).build =
      ((Element.new.with_color c).with_shape v).build ∧
    ((Element.new.with_shape v).with_color c).build.map Vertex.color =
      List.replicate v.length c := by
  constructor
  · rfl
  · simp [Element.build, Element.with_shape, Element.with_color, Element.new,
      List.map_map]
    induction v with
    | nil => rfl
    | cons p ps ih => simpa [List.replicate] using ih

/-- C9: `with_shape` replaces any previously stored shape rather than
appending: chaining two `with_shape` calls builds the same vertex sequence as
the second call alone. -/
theorem element_with_shape_replaces (v1 v2 : List Vec3) :
    ((Element.new.with_shape v1).with_shape v2).build =
      (Element.new.with_shape v2).build := rfl

/-- The `Element::build` output `a` uploaded by `State::new` differs from the
constant `VERTICES` array: `a` carries the uniform color `[1,0,0,0]` while
`VERTICES` has per-vertex colors with alpha `0.5`. -/
theorem new_a_ne_VERTICES : State.new.a ≠ VERTICES := by
  norm_num [State.new.a, State.new.b, Element.build, Element.with_shape,
    Element.with_color, Element.new, VERTICES]

/-- C1 counterexample: at a concrete window/size/capability input, the vertex
buffer uploaded by `State::new` does NOT contain the hardcoded constant array
`VERTICES` (the uploaded data is the `Element::build` output, whose colors
differ from the per-vertex colors of `VERTICES`). -/
theorem state_new_vertex_buffer_ne_VERTICES :
    (State.new 0 0 0 0 ⟨800, 600⟩ ⟨[TextureFormat.base 0]⟩).map
      State.vertex_buffer ≠ some VERTICES :=
  fun h => new_a_ne_VERTICES (Option.some.inj h)

/-- C1 (amended): the vertex buffer uploaded by `State::new` contains the
output of `Element::build` (the builder applied to the hardcoded point list
`b` with color `[1,0,0,0]`), and that output is not the constant `VERTICES`
array — i.e. `Element::build`'s output IS consumed by the renderer as its
vertex buffer, and `VERTICES` is not what gets uploaded. -/
theorem state_new_uploads_element_build_output (w d q su : ℕ)
    (sz : PhysicalSize) (cap : SurfaceCapabilities) (f : TextureFormat)
    (rest : List TextureFormat) (hcap : cap.formats = f :: rest) :
    (State.new w d q su sz cap).map State.vertex_buffer =
      some (((Element.new.with_color (1.0, 0.0, 0.0, 0.0)).with_shape
        State.new.b).build) ∧
    (State.new w d q su sz cap).map State.vertex_buffer ≠ some VERTICES := by
  simp only [State.new, hcap]
  exact ⟨rfl, fun h => new_a_ne_VERTICES (Option.some.inj h)⟩

/-- C1 witness: the amended statement at a concrete input. -/
theorem state_new_uploads_element_build_output_witness :
    (State.new 0 0 0 0 ⟨640, 480⟩ ⟨[TextureFormat.base 1]⟩).map
      State.vertex_buffer =
      some (((Element.new.with_color (1.0, 0.0, 0.0, 0.0)).with_shape
        State.new.b).build) ∧
    (State.new 0 0 0 0 ⟨640, 480⟩ ⟨[TextureFormat.base 1]⟩).map
      State.vertex_buffer ≠ some VERTICES :=
  state_new_uploads_element_build_output 0 0 0 0 ⟨640, 480⟩
    ⟨[TextureFormat.base 1]⟩ (TextureFormat.base 1) [] rfl

/-- C5: `State::new` selects the surface format by taking entry 0 of the
capability format list (no fallback: an empty list is the panic case `none`,
handled by the hypothesis), and that same format is used for the pipeline's
color target and for every surface configuration — the one issued by
`configure_surface` on the new state and the one issued by any later
`resize`. -/
theorem state_new_surface_format_is_first_capability (w d q su : ℕ)
    (sz ns : PhysicalSize) (cap : SurfaceCapabilities) (f : TextureFormat)
    (rest : List TextureFormat) (hcap : cap.formats = f :: rest) :
    (State.new w d q su sz cap).map State.surface_format = some f ∧
    (State.new w d q su sz cap).map
        (fun s => s.render_pipeline.fragment_targets) =
      some [some { format := f, blend := some BlendState.replace }] ∧
    (State.new w d q su sz cap).map (fun s => s.configure_surface.format) =
      some f ∧
    (State.new w d q su sz cap).map
        (fun s => ((s.resize ns).1).configure_surface.format) = some f ∧
    (State.new w d q su sz cap).map (fun s => (s.resize ns).2.format) =
      some f := by
  simp only [State.new, hcap]
  exact ⟨rfl, rfl, rfl, rfl, rfl⟩

/-- C5 witness: the statement at a concrete capability list. -/
theorem state_new_surface_format_is_first_capability_witness :
    (State.new 1 2 3 4 ⟨800, 600⟩ ⟨[TextureFormat.base 7,
        TextureFormat.srgb 7]⟩).map State.surface_format =
      some (TextureFormat.base 7) ∧
    (State.new 1 2 3 4 ⟨800, 600⟩ ⟨[TextureFormat.base 7,
        TextureFormat.srgb 7]⟩).map
        (fun s => s.render_pipeline.fragment_targets) =
      some [some { format := TextureFormat.base 7, blend := some BlendState.replace }] ∧
    (State.new 1 2 3 4 ⟨800, 600⟩ ⟨[TextureFormat.base 7,
        TextureFormat.srgb 7]⟩).map (fun s => s.configure_surface.format) =
      some (TextureFormat.base 7) ∧
    (State.new 1 2 3 4 ⟨800, 600⟩ ⟨[TextureFormat.base 7,
        TextureFormat.srgb 7]⟩).map
        (fun s => ((s.resize ⟨1, 1⟩).1).configure_surface.format) =
      some (TextureFormat.base 7) ∧
    (State.new 1 2 3 4 ⟨800, 600⟩ ⟨[TextureFormat.base 7,
        TextureFormat.srgb 7]⟩).map (fun s => (s.resize ⟨1, 1⟩).2.format) =
      some (TextureFormat.base 7) :=
  state_new_surface_format_is_first_capability 1 2 3 4 ⟨800, 600⟩ ⟨1, 1⟩
    ⟨[TextureFormat.base 7, TextureFormat.srgb 7]⟩ (TextureFormat.base 7)
    [TextureFormat.srgb 7] rfl

/-- C6: for every `new_size` — zero width or height included, since the
statement is universal and performs no validation — `resize(new_size)` stores
`new_size` and synchronously reapplies a surface configuration whose width
and height are exactly those of `new_size`. -/
theorem resize_stores_size_and_reconfigures (s : State)
    (new_size : PhysicalSize) :
    (s.resize new_size).1.size = new_size ∧
    (s.resize new_size).2 = ((s.resize new_size).1).configure_surface ∧
    (s.resize new_size).2.width = new_size.width ∧
    (s.resize new_size).2.height = new_size.height :=
  ⟨rfl, rfl, rfl, rfl⟩

/-- C7: the mesh index data of any state produced by `State::new` satisfies
the bounds invariant: the index buffer is `INDICES = [0, 1, 2]` (3 indices,
one triangle), `num_indices = 3`, the vertex buffer holds 3 vertices, and
every index value is strictly below the vertex count. -/
theorem state_new_index_bounds (w d q su : ℕ) (sz : PhysicalSize)
    (cap : SurfaceCapabilities) (f : TextureFormat)
    (rest : List TextureFormat) (hcap : cap.formats = f :: rest) :
    (State.new w d q su sz cap).map State.index_buffer = some [0, 1, 2] ∧
    (State.new w d q su sz cap).map State.num_indices = some 3 ∧
    (State.new w d q su sz cap).map (fun s => s.vertex_buffer.length) =
      some 3 ∧
    (State.new w d q su sz cap).map
        (fun s => s.index_buffer.all
          (fun i => decide (i < s.vertex_buffer.length))) = some true := by
  simp only [State.new, hcap]
  exact ⟨rfl, rfl, rfl, rfl⟩

/-- C7 witness: the statement at a concrete input. -/
theorem state_new_index_bounds_witness :
    (State.new 0 0 0 0 ⟨320, 200⟩ ⟨[TextureFormat.srgb 2]⟩).map
      State.index_buffer = some [0, 1, 2] ∧
    (State.new 0 0 0 0 ⟨320, 200⟩ ⟨[TextureFormat.srgb 2]⟩).map
      State.num_indices = some 3 ∧
    (State.new 0 0 0 0 ⟨320, 200⟩ ⟨[TextureFormat.srgb 2]⟩).map
      (fun s => s.vertex_buffer.length) = some 3 ∧
    (State.new 0 0 0 0 ⟨320, 200⟩ ⟨[TextureFormat.srgb 2]⟩).map
      (fun s => s.index_buffer.all
        (fun i => decide (i < s.vertex_buffer.length))) = some true :=
  state_new_index_bounds 0 0 0 0 ⟨320, 200⟩ ⟨[TextureFormat.srgb 2]⟩
    (TextureFormat.srgb 2) [] rfl

/-- C8: `render()` panics (returns `none`) when acquiring the next surface
image fails, and on success issues, in this order: begin the render pass
clearing to transparent `[0,0,0,0]`, set the fixed pipeline, set the vertex
buffer, set the index buffer, one single indexed draw call over indices
`0..num_indices`, then submit and present last; the trace contains exactly
one indexed draw call. -/
theorem render_trace_order (s : State) :
    s.render none = none ∧
    s.render (some ()) =
      some
        [ RenderOp.begin_render_pass (0.0, 0.0, 0.0, 0.0),
          RenderOp.set_pipeline s.render_pipeline,
          RenderOp.set_vertex_buffer 0 s.vertex_buffer,
          RenderOp.set_index_buffer s.index_buffer,
          RenderOp.draw_indexed 0 s.num_indices,
          RenderOp.submit,
          RenderOp.present ] ∧
    ((s.render (some ())).getD []).countP RenderOp.is_draw_indexed = 1 :=
  ⟨rfl, rfl, rfl⟩

/-- C10: `resize` modifies only the stored size: surface format, render
pipeline, vertex buffer, index buffer and `num_indices` (and the opaque
window/device/queue/surface handles) are unchanged. -/
theorem resize_frame_condition (s : State) (new_size : PhysicalSize) :
    (s.resize new_size).1.surface_format = s.surface_format ∧
    (s.resize new_size).1.render_pipeline = s.render_pipeline ∧
    (s.resize new_size).1.vertex_buffer = s.vertex_buffer ∧
    (s.resize new_size).1.index_buffer = s.index_buffer ∧
    (s.resize new_size).1.num_indices = s.num_indices ∧
    (s.resize new_size).1.window = s.window ∧
    (s.resize new_size).1.device = s.device ∧
    (s.resize new_size).1.queue = s.queue ∧
    (s.resize new_size).1.surface = s.surface :=
  ⟨rfl, rfl, rfl, rfl, rfl, rfl, rfl, rfl, rfl⟩

end Gfx
